import Mathlib

/-!
Shallow embedding of `src/main.py` (a small menu-driven exploration game).

Python objects are mutable and aliased, so the embedding is heap-style:
every Python list object holding items is a cell of a `World` heap keyed by
`ListId`; a `Container` value carries the `ListId` its `_items` field
references (two containers aliasing the same Python list carry the same
`ListId`).  The mutable fields of an `ItemUse` (`__item`,
`_virtual_location`) live in the heap keyed by `UseId`; the immutable ones
(`_name`, `_description`, `__destroy_on_execute`, `_execute`) are plain
record fields.  Item identity (Python object identity, which is what
`list.remove` compares with for these classes) is a `ItemId` natural.

A Python call that raises an uncaught exception is modelled as `none`;
`some` is normal return.
-/

abbrev ItemId := Nat
abbrev ContainerId := Nat
abbrev UseId := Nat
abbrev ListId := Nat

/-- `class Container` (src/main.py:46-95): `_name`, `_description`, and the
reference `_items` to a list object, modelled as the heap cell `itemsRef`.
`Location`/`Room`/`Player` add no further per-object mutable item state, so
one record serves for all of them; a `Location`'s `_exits` list lives in the
`World` heap keyed by `cid`. -/
structure Container where
  cid : ContainerId
  name : String
  description : String
  itemsRef : ListId
  deriving DecidableEq, Repr

/-- `class Exit` (src/main.py:8-43): `_to` references a `Location` object,
`_description` is a string. -/
structure Exit where
  toLoc : Container
  description : String
  deriving DecidableEq, Repr

/-- The mutable fields of `class ItemUse` (src/main.py:131-200):
`__item` (set by `set_item`) and `_virtual_location`
(set by `set_virtual_location`). -/
structure ItemUseState where
  boundItem : Option ItemId
  virtualLocation : Option Container
  deriving DecidableEq, Repr

/-- The mutable world: the heap of item-list cells, each location's exit
list, each use's mutable state, and the player's `_location` field. -/
structure World where
  lists : ListId → List ItemId
  exits : ContainerId → List Exit
  uses : UseId → ItemUseState
  playerLoc : Option Container

/-- Write one item-list heap cell. -/
def World.setList (w : World) (r : ListId) (l : List ItemId) : World :=
  { w with lists := fun r' => if r' = r then l else w.lists r' }

/-- Write one use-state heap cell. -/
def World.setUse (w : World) (u : UseId) (s : ItemUseState) : World :=
  { w with uses := fun u' => if u' = u then s else w.uses u' }

/-- `Container.get_items` (src/main.py:74-78): returns the live list
object `self._items`. -/
def Container.get_items (w : World) (c : Container) : List ItemId :=
  w.lists c.itemsRef

/-- `Container.add_item` (src/main.py:80-84): `self._items.append(item)`. -/
def Container.add_item (w : World) (c : Container) (i : ItemId) : World :=
  w.setList c.itemsRef (w.lists c.itemsRef ++ [i])

/-- Python `list.remove(x)`: removes the first entry equal to `x`
(identity for these classes), raising `ValueError` (`none`) when absent. -/
def pyListRemove (l : List ItemId) (i : ItemId) : Option (List ItemId) :=
  if i ∈ l then some (l.erase i) else none

/-- `Container.remove_item` (src/main.py:86-95): `self._items.remove(item)`
inside `try`, with `except ValueError: pass`. -/
def Container.remove_item (w : World) (c : Container) (i : ItemId) : World :=
  match pyListRemove (w.lists c.itemsRef) i with
  | some l => w.setList c.itemsRef l
  | none => w

/-- `Location.get_exits` (src/main.py:110-114). -/
def Location.get_exits (w : World) (loc : Container) : List Exit :=
  w.exits loc.cid

/-- `Location.add_exit` (src/main.py:116-120): `self._exits.append(exit)`. -/
def Location.add_exit (w : World) (loc : Container) (e : Exit) : World :=
  { w with exits := fun c' => if c' = loc.cid then w.exits loc.cid ++ [e] else w.exits c' }

/-- `Container.__init__` (src/main.py:57-60): `self._items = items` binds
the container to the caller's list object, i.e. to the given heap cell. -/
def Container.init (name description : String) (cid : ContainerId) (itemsRef : ListId) : Container :=
  { cid := cid, name := name, description := description, itemsRef := itemsRef }

/-- The one list object created when `Room.__init__`'s default argument
`items: List[Item] = []` (src/main.py:127) is evaluated, at function
definition time; every call of `Room(...)` that omits `items` binds
`_items` to this same object. -/
def roomDefaultItemsRef : ListId := 0

/-- `Room.__init__` (src/main.py:123-128): delegates to the
`Location`/`Container` constructor; when the `items` argument is omitted it
passes the shared default list object `roomDefaultItemsRef`.
(The `exits` argument is its own heap cell under `World.exits`, not part of
the returned record.) -/
def Room.init (cid : ContainerId) (name description : String) (itemsArg : Option ListId) : Container :=
  Container.init name description cid (itemsArg.getD roomDefaultItemsRef)

/-- The immutable fields of `class ItemUse` (src/main.py:131-156):
`_name`, `_description`, `__destroy_on_execute`, and the callable
`_execute` set once in `__init__`.  Every `_execute` this repository
constructs is a `lambda: print(...)` closure, which reads but never writes
the world; the callable is therefore modelled as the lines it prints as a
function of the world it observes. -/
structure ItemUse where
  uid : UseId
  name : String
  description : String
  destroy_on_execute : Bool
  effect : World → List String

/-- `ItemUse.__init__` (src/main.py:150-156): `self.__item = None`,
`self._virtual_location = None`. -/
def ItemUse.init : ItemUseState :=
  { boundItem := none, virtualLocation := none }

/-- `ItemUse.set_item` (src/main.py:158-162). -/
def ItemUse.set_item (w : World) (u : UseId) (i : ItemId) : World :=
  w.setUse u { w.uses u with boundItem := some i }

/-- `ItemUse.get_virtual_location` (src/main.py:176-180). -/
def ItemUse.get_virtual_location (w : World) (u : UseId) : Option Container :=
  (w.uses u).virtualLocation

/-- `ItemUse.set_virtual_location` (src/main.py:182-186). -/
def ItemUse.set_virtual_location (w : World) (u : UseId) (c : Container) : World :=
  w.setUse u { w.uses u with virtualLocation := some c }

/-- `ItemUse.destroy` (src/main.py:196-200):
`self.get_virtual_location().remove_item(self.__item)`.
When `_virtual_location` is `None` this is `None.remove_item(...)`, an
uncaught `AttributeError` (`none`).  When `__item` is `None`,
`list.remove(None)` raises `ValueError` inside `remove_item`'s `try`,
which is caught there, so the call is a no-op. -/
def ItemUse.destroy (w : World) (u : UseId) : Option World :=
  match (w.uses u).virtualLocation with
  | none => none
  | some c =>
    match (w.uses u).boundItem with
    | none => some w
    | some i => some (Container.remove_item w c i)

/-- `ItemUse.execute` (src/main.py:188-194): if `__destroy_on_execute`,
first `self.destroy()`, then `self._execute()`.  Returns the resulting
world paired with the lines the callable prints, which observe the world
as it is at the moment the callable runs. -/
def ItemUse.execute (u : ItemUse) (w : World) : Option (World × List String) :=
  if u.destroy_on_execute then
    match ItemUse.destroy w u.uid with
    | none => none
    | some w' => some (w', u.effect w')
  else
    some (w, u.effect w)

/-- `class Item` (src/main.py:202-235): `_name`, `_description`, `_use`,
all set once at construction. -/
structure Item where
  iid : ItemId
  name : String
  description : String
  use : ItemUse

/-- `Item.__init__` (src/main.py:213-217) together with the
`ItemUse.__init__` of its use: allocate the use's mutable state
(`__item = None`, `_virtual_location = None`), then `use.set_item(self)`. -/
def Item.construct (w : World) (it : Item) : World :=
  ItemUse.set_item (w.setUse it.use.uid ItemUse.init) it.use.uid it.iid

/-- Dereferencing an `Item` object from its identity: the static map from
item references to the (immutable) `Item` records of this world. -/
structure Env where
  itemOf : ItemId → Item

/-- Digit-string to number, as Python `int()` reads a plain run of ASCII
digits (most significant first). -/
def parseDigits (cs : List Char) : Option Nat :=
  if cs = [] then none
  else if cs.all Char.isDigit then
    some (cs.foldl (fun a c => a * 10 + (c.toNat - 48)) 0)
  else none

/-- Python `int(s)` on a console line: an optional sign followed by one or
more ASCII digits parses; anything else raises `ValueError` (`none`).
(CPython also strips whitespace and allows underscores; none of the inputs
the program or spec discuss use those.) -/
def pyParseInt (s : String) : Option Int :=
  match s.data with
  | '-' :: cs => (parseDigits cs).map (fun n => -(n : Int))
  | '+' :: cs => (parseDigits cs).map (fun n => (n : Int))
  | cs => (parseDigits cs).map (fun n => (n : Int))

/-- The error line the main-menu loop prints on a bad selection
(src/main.py:366). -/
def mainMenuError (n : Nat) : String :=
  s!"Invalid choice. Please enter a number between 1 and {n}."

/-- One pass of the main-menu loop body (src/main.py:360-364): parse the
line with `int`; a `ValueError` or a value outside `[1, len(actions)]`
resets `action` to `None` (the `raise ValueError` lands in the same
`except`). -/
def validMain (n : Nat) (s : String) : Option Int :=
  match pyParseInt s with
  | none => none
  | some k => if k < 1 ∨ k > (n : Int) then none else some k

/-- The main-menu `while not action` loop (src/main.py:358-366) over the
stream of console lines: returns the accepted selection (if the stream
yields one) and the error lines printed along the way. -/
def promptSelectLoop (n : Nat) : List String → Option Int × List String
  | [] => (none, [])
  | s :: rest =>
    match validMain n s with
    | some k => (some k, [])
    | none =>
      let p := promptSelectLoop n rest
      (p.1, mainMenuError n :: p.2)

/-- `PlayerAction` (src/main.py:246-255): the tagged selection tuples; the
`take` payload is the `Item` object reference, the `go` payload the
`Exit`. -/
inductive PlayerAction where
  | quit
  | inventory
  | take (item : ItemId)
  | go (ex : Exit)
  deriving DecidableEq, Repr

/-- `actions[action - 1]` (src/main.py:367): the action the accepted
selection dispatches. -/
def chooseAction (actions : List PlayerAction) (inputs : List String) : Option PlayerAction :=
  match (promptSelectLoop actions.length inputs).1 with
  | some k => actions.get? (k.toNat - 1)
  | none => none

/-- The error line the inventory loop prints on a bad selection
(src/main.py:301).  Note the bounds it interpolates: `0` and
`len(self.get_items())`. -/
def inventoryError (numItems : Nat) : String :=
  s!"Invalid choice. Please enter a number between 0 and {numItems}."

/-- A line naming the range `lo..hi` in the format the menus use — the
spec-side shape of "an error message naming the valid range", for
comparison with what the code actually prints. -/
def boundsMessage (lo hi : Nat) : String :=
  s!"Invalid choice. Please enter a number between {lo} and {hi}."

/-- One pass of the inventory loop body (src/main.py:295-299): parse with
`int`; a `ValueError` or a value outside `[1, len(items) + 1]` is
rejected. -/
def invValid (numItems : Nat) (s : String) : Option Int :=
  match pyParseInt s with
  | none => none
  | some k => if k < 1 ∨ k > (numItems : Int) + 1 then none else some k

/-- The inventory `while not choice` loop (src/main.py:293-301) over the
stream of console lines. -/
def invSelectLoop (numItems : Nat) : List String → Option Int × List String
  | [] => (none, [])
  | s :: rest =>
    match invValid numItems s with
    | some k => (some k, [])
    | none =>
      let p := invSelectLoop numItems rest
      (p.1, inventoryError numItems :: p.2)

/-- `Player.print_and_get_actions` (src/main.py:318-345): start from
`[('quit', None), ('inventory', None)]`, append one `take` per item of the
current location (in list order), then one `go` per exit (in list
order). -/
def Player.print_and_get_actions (w : World) (loc : Container) : List PlayerAction :=
  let actions := (Container.get_items w loc).foldl
    (fun acc i => acc ++ [PlayerAction.take i])
    [PlayerAction.quit, PlayerAction.inventory]
  (Location.get_exits w loc).foldl (fun acc e => acc ++ [PlayerAction.go e]) actions

/-- `Player.enter_inventory` (src/main.py:282-308): run the selection loop
over `[1, len(items) + 1]`; `1` closes the menu and returns; otherwise
`self.get_items()[choice - 2].get_use().execute()`.  (`get_use()` always
returns the `ItemUse` bound at construction, so the defensive
`if not ... get_use()` branch at src/main.py:305 is never taken.)  `none`
models an uncaught exception from `execute` or a console stream that ends
before a selection is accepted. -/
def Player.enter_inventory (env : Env) (player : Container) (invInputs : List String)
    (w : World) : Option World :=
  let items := Container.get_items w player
  match (invSelectLoop items.length invInputs).1 with
  | none => none
  | some choice =>
    if choice = 1 then some w
    else
      match items.get? (choice.toNat - 2) with
      | none => none
      | some i =>
        match ItemUse.execute (env.itemOf i).use w with
        | none => none
        | some r => some r.1

/-- The `match action_type` dispatch of `Player.prompt`
(src/main.py:367-386), one turn.  `quit` calls `exit()` (no further
world, `none`); `inventory` runs the sub-menu over the console lines
`invInputs`; `take` removes the item from the current location, appends it
to the player's items, and sets the use's virtual location to the player;
`go` sets the player's location to the exit's target. -/
def Player.dispatch (env : Env) (player : Container) (invInputs : List String)
    (w : World) : PlayerAction → Option World
  | PlayerAction.quit => none
  | PlayerAction.inventory => Player.enter_inventory env player invInputs w
  | PlayerAction.take i =>
    match w.playerLoc with
    | none => none
    | some loc =>
      let w1 := Container.remove_item w loc i
      let w2 := Container.add_item w1 player i
      some (ItemUse.set_virtual_location w2 (env.itemOf i).use.uid player)
  | PlayerAction.go ex => some { w with playerLoc := some ex.toLoc }

/-! Concrete objects mirroring the world builder (src/main.py:429-451),
used as evaluation inputs.  The GPT-generated room descriptions are
runtime data; fixed placeholder strings stand in for them.  Heap layout:
cell 0 is `Room.__init__`'s default list, the lounge's list is cell 1,
the player's cell 2, the hall's cell 3; the crown is item 0 with use 0. -/

def crownUse : ItemUse :=
  { uid := 0, name := "Wear", description := "Wear the crown.",
    destroy_on_execute := true,
    effect := fun _ => ["You put the crown on your head."] }

def crown : Item :=
  { iid := 0, name := "Crown", description := "A golden crown.", use := crownUse }

def lounge : Container :=
  { cid := 0, name := "Lounge", description := "A homely, dimly lit lounge.", itemsRef := 1 }

def thePlayer : Container :=
  { cid := 1, name := "Avery", description := "You are you.", itemsRef := 2 }

def hall : Container :=
  { cid := 2, name := "Hall", description := "A long, narrow hallway.", itemsRef := 3 }

def hallExit : Exit :=
  { toLoc := hall, description := "Go to the Hall." }

def sampleEnv : Env := { itemOf := fun _ => crown }

/-- The game start: the crown lies in the lounge, taken by nobody; its use
was freshly constructed, so its owner is unset; the player stands in the
lounge with empty inventory. -/
def startWorld : World :=
  { lists := fun r => if r = 1 then [0] else [],
    exits := fun c => if c = 0 then [hallExit] else [],
    uses := fun _ => { boundItem := some 0, virtualLocation := none },
    playerLoc := some lounge }

/-- `startWorld` after the crown has been taken: the player holds it and
the use's virtual location is the player. -/
def takenWorld : World :=
  { lists := fun r => if r = 2 then [0] else [],
    exits := fun c => if c = 0 then [hallExit] else [],
    uses := fun _ => { boundItem := some 0, virtualLocation := some thePlayer },
    playerLoc := some lounge }

/-! Frame lemmas for the heap operations. -/

theorem lists_setList_self (w : World) (r : ListId) (l : List ItemId) :
    (w.setList r l).lists r = l := by
  simp [World.setList]

theorem lists_setList_ne (w : World) (r : ListId) (l : List ItemId) (r' : ListId)
    (h : r' ≠ r) : (w.setList r l).lists r' = w.lists r' := by
  simp [World.setList, h]

theorem remove_item_uses (w : World) (c : Container) (i : ItemId) :
    (Container.remove_item w c i).uses = w.uses := by
  unfold Container.remove_item
  cases pyListRemove (w.lists c.itemsRef) i <;> rfl

theorem remove_item_playerLoc (w : World) (c : Container) (i : ItemId) :
    (Container.remove_item w c i).playerLoc = w.playerLoc := by
  unfold Container.remove_item
  cases pyListRemove (w.lists c.itemsRef) i <;> rfl

theorem remove_item_lists_ne (w : World) (c : Container) (i : ItemId) (r : ListId)
    (h : r ≠ c.itemsRef) : (Container.remove_item w c i).lists r = w.lists r := by
  unfold Container.remove_item
  cases pyListRemove (w.lists c.itemsRef) i with
  | none => rfl
  | some l => exact lists_setList_ne _ _ _ _ h

theorem remove_item_absent (w : World) (c : Container) (i : ItemId)
    (h : i ∉ w.lists c.itemsRef) : Container.remove_item w c i = w := by
  unfold Container.remove_item pyListRemove
  rw [if_neg h]

theorem destroy_preserves (w : World) (u : UseId) (w' : World)
    (h : ItemUse.destroy w u = some w') :
    w'.uses = w.uses ∧ w'.playerLoc = w.playerLoc := by
  unfold ItemUse.destroy at h
  cases hv : (w.uses u).virtualLocation with
  | none => rw [hv] at h; exact absurd h (by simp)
  | some c =>
    rw [hv] at h
    cases hb : (w.uses u).boundItem with
    | none => rw [hb] at h; cases h; exact ⟨rfl, rfl⟩
    | some i =>
      rw [hb] at h; cases h
      exact ⟨remove_item_uses w c i, remove_item_playerLoc w c i⟩

theorem execute_preserves (u : ItemUse) (w : World) (r : World × List String)
    (h : ItemUse.execute u w = some r) :
    r.1.uses = w.uses ∧ r.1.playerLoc = w.playerLoc := by
  unfold ItemUse.execute at h
  by_cases hd : u.destroy_on_execute
  · rw [if_pos hd] at h
    cases hde : ItemUse.destroy w u.uid with
    | none => rw [hde] at h; exact absurd h (by simp)
    | some w' =>
      rw [hde] at h; cases h
      exact destroy_preserves w u.uid w' hde
  · rw [if_neg hd] at h; cases h; exact ⟨rfl, rfl⟩

theorem enter_inventory_preserves (env : Env) (player : Container)
    (invInputs : List String) (w : World) (w' : World)
    (h : Player.enter_inventory env player invInputs w = some w') :
    w'.uses = w.uses ∧ w'.playerLoc = w.playerLoc := by
  simp only [Player.enter_inventory] at h
  split at h
  · exact absurd h (by simp)
  split at h
  · cases h
    exact ⟨rfl, rfl⟩
  split at h
  · exact absurd h (by simp)
  split at h
  · exact absurd h (by simp)
  next r he =>
    cases h
    exact execute_preserves _ w r he

theorem foldl_append_singleton {α β : Type} (f : α → β) (l : List α) (init : List β) :
    l.foldl (fun acc x => acc ++ [f x]) init = init ++ l.map f := by
  induction l generalizing init with
  | nil => simp
  | cons x xs ih => simp [ih]

/-- C4: for every current location with item list `[x1..xm]` and exit list
`[e1..ek]`, the action list `print_and_get_actions` builds is exactly
`Quit, Inventory, Take x1, .., Take xm, Go e1, .., Go ek`, in that
order. -/
theorem claim4_action_enumeration (w : World) (loc : Container) :
    Player.print_and_get_actions w loc
      = [PlayerAction.quit, PlayerAction.inventory]
        ++ (Container.get_items w loc).map PlayerAction.take
        ++ (Location.get_exits w loc).map PlayerAction.go := by
  unfold Player.print_and_get_actions
  rw [foldl_append_singleton, foldl_append_singleton, List.append_assoc]

/-- C7: `Container.remove_item` on an absent item leaves the world (in
particular the container's item list) unchanged and raises nothing; on a
present item it removes exactly the first matching entry (identity
equality), touching no other list cell. -/
theorem claim7_remove_item (w : World) (c : Container) (i : ItemId) :
    (i ∉ w.lists c.itemsRef → Container.remove_item w c i = w)
    ∧ (i ∈ w.lists c.itemsRef →
        ∃ pre post, w.lists c.itemsRef = pre ++ i :: post ∧ i ∉ pre
          ∧ (Container.remove_item w c i).lists c.itemsRef = pre ++ post
          ∧ ∀ r, r ≠ c.itemsRef → (Container.remove_item w c i).lists r = w.lists r) := by
  constructor
  · exact remove_item_absent w c i
  · intro hmem
    obtain ⟨pre, post, hpre, heq, herase⟩ := List.exists_erase_eq hmem
    refine ⟨pre, post, heq, hpre, ?_, fun r hr => remove_item_lists_ne w c i r hr⟩
    unfold Container.remove_item pyListRemove
    rw [if_pos hmem]
    rw [lists_setList_self, herase]

/-- C7 witness: in `startWorld` the lounge's list is `[0]`; removing the
absent item `7` changes nothing, and removing `0` yields the decomposition
`[] ++ 0 :: []`. -/
theorem claim7_witness :
    (7 ∉ startWorld.lists lounge.itemsRef)
    ∧ Container.remove_item startWorld lounge 7 = startWorld
    ∧ (0 ∈ startWorld.lists lounge.itemsRef)
    ∧ ∃ pre post, startWorld.lists lounge.itemsRef = pre ++ 0 :: post ∧ 0 ∉ pre
        ∧ (Container.remove_item startWorld lounge 0).lists lounge.itemsRef = pre ++ post
        ∧ ∀ r, r ≠ lounge.itemsRef →
            (Container.remove_item startWorld lounge 0).lists r = startWorld.lists r :=
  ⟨by decide,
   (claim7_remove_item startWorld lounge 7).1 (by decide),
   by decide,
   (claim7_remove_item startWorld lounge 0).2 (by decide)⟩

/-- C10: two `Room`s constructed with the `items` argument omitted are
bound to the one default list object, so they alias each other's item
sequence: `add_item` through the first is visible in `get_items` of the
second, and `remove_item` through either produces the same world. -/
theorem claim10_shared_default_list (c1 c2 : ContainerId)
    (n1 d1 n2 d2 : String) (w : World) (i : ItemId) :
    (Room.init c1 n1 d1 none).itemsRef = (Room.init c2 n2 d2 none).itemsRef
    ∧ i ∈ Container.get_items (Container.add_item w (Room.init c1 n1 d1 none) i)
        (Room.init c2 n2 d2 none)
    ∧ ∀ j, Container.remove_item w (Room.init c1 n1 d1 none) j
          = Container.remove_item w (Room.init c2 n2 d2 none) j := by
  refine ⟨rfl, ?_, fun j => rfl⟩
  show i ∈ (w.setList roomDefaultItemsRef (w.lists roomDefaultItemsRef ++ [i])).lists
      roomDefaultItemsRef
  rw [lists_setList_self]
  exact List.mem_append_right _ (List.mem_singleton.mpr rfl)

/-- `takenWorld` after the crown's `Wear` use has destroyed it: every list
is empty, but the use still remembers the player as owner. -/
def usedWorld : World :=
  { lists := fun _ => [],
    exits := fun c => if c = 0 then [hallExit] else [],
    uses := fun _ => { boundItem := some 0, virtualLocation := some thePlayer },
    playerLoc := some lounge }

/-- C2 counterexample: at game start the crown's use has an unset
`_virtual_location` (nothing has called `set_virtual_location` yet), and
`destroy()` on it is not silently inert — `None.remove_item(...)` raises
an uncaught `AttributeError`, modelled as `none`. -/
theorem claim2_counterexample :
    (startWorld.uses 0).virtualLocation = none
    ∧ ItemUse.destroy startWorld 0 = none :=
  ⟨rfl, rfl⟩

/-- C2 amended: `destroy()` with a *set* owner whose list does not hold the
bound item is silently inert (no error, the world — in particular every
container's item list — unchanged); with an *unset* owner it raises an
uncaught `AttributeError` instead of being silent. -/
theorem claim2_amended (w : World) (u : UseId) (c : Container) :
    ((w.uses u).virtualLocation = none → ItemUse.destroy w u = none)
    ∧ ((w.uses u).virtualLocation = some c →
        (∀ i, (w.uses u).boundItem = some i → i ∉ w.lists c.itemsRef) →
        ItemUse.destroy w u = some w) := by
  constructor
  · intro h
    unfold ItemUse.destroy
    rw [h]
  · intro hc habs
    cases hb : (w.uses u).boundItem with
    | none =>
      unfold ItemUse.destroy
      rw [hc, hb]
    | some i =>
      have : ItemUse.destroy w u = some (Container.remove_item w c i) := by
        unfold ItemUse.destroy
        rw [hc, hb]
      rw [this, remove_item_absent w c i (habs i hb)]

/-- C2 witness: after the crown has been worn away, its owner is still the
player but no list holds it; `destroy()` returns normally and changes
nothing. -/
theorem claim2_witness :
    (usedWorld.uses 0).virtualLocation = some thePlayer
    ∧ ItemUse.destroy usedWorld 0 = some usedWorld :=
  ⟨rfl,
   (claim2_amended usedWorld 0 thePlayer).2 rfl
     (fun i hi => by injection hi with h; subst h; simp [usedWorld])⟩

theorem validMain_none_parse (n : Nat) (s : String) (h : pyParseInt s = none) :
    validMain n s = none := by
  unfold validMain
  rw [h]

theorem validMain_some_parse (n : Nat) (s : String) (m : Int)
    (h : pyParseInt s = some m) :
    validMain n s = if m < 1 ∨ m > (n : Int) then none else some m := by
  unfold validMain
  rw [h]

theorem promptSelectLoop_cons_some (n : Nat) (s : String) (rest : List String)
    (k : Int) (h : validMain n s = some k) :
    promptSelectLoop n (s :: rest) = (some k, []) := by
  unfold promptSelectLoop
  rw [h]

theorem promptSelectLoop_cons_none (n : Nat) (s : String) (rest : List String)
    (h : validMain n s = none) :
    promptSelectLoop n (s :: rest)
      = ((promptSelectLoop n rest).1, mainMenuError n :: (promptSelectLoop n rest).2) := by
  have e : promptSelectLoop n (s :: rest)
      = match validMain n s with
        | some k => (some k, [])
        | none =>
          ((promptSelectLoop n rest).1, mainMenuError n :: (promptSelectLoop n rest).2) := rfl
  rw [e, h]

theorem validMain_bounds (n : Nat) (s : String) (k : Int)
    (h : validMain n s = some k) : 1 ≤ k ∧ k ≤ (n : Int) := by
  cases hp : pyParseInt s with
  | none => rw [validMain_none_parse n s hp] at h; exact absurd h (by simp)
  | some m =>
    rw [validMain_some_parse n s m hp] at h
    by_cases hb : m < 1 ∨ m > (n : Int)
    · rw [if_pos hb] at h
      exact absurd h (by simp)
    · rw [if_neg hb] at h
      injection h with h
      omega

theorem promptSelectLoop_bounds (n : Nat) (inputs : List String) (k : Int)
    (h : (promptSelectLoop n inputs).1 = some k) : 1 ≤ k ∧ k ≤ (n : Int) := by
  induction inputs with
  | nil => exact absurd h (by simp [promptSelectLoop])
  | cons s rest ih =>
    cases hv : validMain n s with
    | some m =>
      rw [promptSelectLoop_cons_some n s rest m hv] at h
      injection h with h
      subst h
      exact validMain_bounds n s m hv
    | none =>
      rw [promptSelectLoop_cons_none n s rest hv] at h
      exact ih h

/-- C3: in the main menu over `n` actions, a console line is accepted
exactly when it parses as an integer in `[1, n]`; a rejected line leaves
the loop's outcome unchanged and adds one error report; any accepted `k`
lies in `[1, n]` and dispatches the `k`-th entry of the action list. -/
theorem claim3_main_menu_validation (n : Nat) (s : String)
    (rest : List String) (k : Int) :
    (validMain n s = some k ↔ pyParseInt s = some k ∧ 1 ≤ k ∧ k ≤ (n : Int))
    ∧ (validMain n s = none →
        promptSelectLoop n (s :: rest)
          = ((promptSelectLoop n rest).1, mainMenuError n :: (promptSelectLoop n rest).2))
    ∧ ((promptSelectLoop n (s :: rest)).1 = some k → 1 ≤ k ∧ k ≤ (n : Int))
    ∧ (∀ actions : List PlayerAction, actions.length = n →
        (promptSelectLoop n (s :: rest)).1 = some k →
        ∃ a, actions.get? (k.toNat - 1) = some a
          ∧ chooseAction actions (s :: rest) = some a) := by
  refine ⟨?_, promptSelectLoop_cons_none n s rest, promptSelectLoop_bounds n (s :: rest) k, ?_⟩
  · constructor
    · intro h
      have hb := validMain_bounds n s k h
      cases hp : pyParseInt s with
      | none => rw [validMain_none_parse n s hp] at h; exact absurd h (by simp)
      | some m =>
        rw [validMain_some_parse n s m hp] at h
        by_cases hcond : m < 1 ∨ m > (n : Int)
        · rw [if_pos hcond] at h
          exact absurd h (by simp)
        · rw [if_neg hcond] at h
          injection h with h
          subst h
          exact ⟨rfl, hb⟩
    · rintro ⟨hp, h1, h2⟩
      rw [validMain_some_parse n s k hp, if_neg (by omega)]
  · intro actions hlen hacc
    obtain ⟨h1, h2⟩ := promptSelectLoop_bounds n (s :: rest) k hacc
    have hidx : k.toNat - 1 < actions.length := by omega
    have hget : actions.get? (k.toNat - 1) = some (actions.get ⟨k.toNat - 1, hidx⟩) :=
      List.get?_eq_get hidx
    refine ⟨actions.get ⟨k.toNat - 1, hidx⟩, hget, ?_⟩
    unfold chooseAction
    have hlen' : promptSelectLoop actions.length (s :: rest)
        = promptSelectLoop n (s :: rest) := by rw [hlen]
    rw [hlen', hacc]
    exact hget

/-- C3 witness: with five actions, the lines `0`, `6`, `abc` are each
rejected with an error report and `3` then selects the third action. -/
theorem claim3_witness :
    (validMain 5 "abc" = none)
    ∧ promptSelectLoop 5 ["abc", "3"]
        = ((promptSelectLoop 5 ["3"]).1, mainMenuError 5 :: (promptSelectLoop 5 ["3"]).2) :=
  ⟨by decide, (claim3_main_menu_validation 5 "abc" ["3"] 3).2.1 (by decide)⟩

/-- C5: executing a destroy-on-execute `ItemUse` whose owner is set first
removes the bound item from the owner, and only then runs the effect: the
world the effect observes (and the one `execute` returns) already lacks
the item in the prior owner's list.  With `destroy_on_execute = false` the
effect observes the unchanged world and no container is touched. -/
theorem claim5_destroy_before_effect (u : ItemUse) (w : World) (c : Container)
    (i : ItemId)
    (hown : (w.uses u.uid).virtualLocation = some c)
    (hitem : (w.uses u.uid).boundItem = some i)
    (hcount : (w.lists c.itemsRef).count i ≤ 1) :
    (u.destroy_on_execute = true →
      ∃ w', ItemUse.destroy w u.uid = some w'
        ∧ ItemUse.execute u w = some (w', u.effect w')
        ∧ i ∉ w'.lists c.itemsRef)
    ∧ (u.destroy_on_execute = false →
        ItemUse.execute u w = some (w, u.effect w)) := by
  have hdes : ItemUse.destroy w u.uid = some (Container.remove_item w c i) := by
    unfold ItemUse.destroy
    rw [hown, hitem]
  constructor
  · intro hd
    refine ⟨Container.remove_item w c i, hdes, ?_, ?_⟩
    · simp only [ItemUse.execute, hd, if_true, hdes]
    · by_cases hmem : i ∈ w.lists c.itemsRef
      · have hrw : (Container.remove_item w c i).lists c.itemsRef
            = (w.lists c.itemsRef).erase i := by
          unfold Container.remove_item pyListRemove
          rw [if_pos hmem, lists_setList_self]
        rw [hrw]
        have h0 : ((w.lists c.itemsRef).erase i).count i = 0 := by
          rw [List.count_erase_self]
          omega
        exact List.count_eq_zero.mp h0
      · rw [remove_item_absent w c i hmem]
        exact hmem
  · intro hd
    simp [ItemUse.execute, hd]

/-- C5 witness: wearing the crown from the player's inventory destroys it
first; the effect observes a world in which the player no longer holds
it. -/
theorem claim5_witness :
    (takenWorld.uses crownUse.uid).virtualLocation = some thePlayer
    ∧ (takenWorld.uses crownUse.uid).boundItem = some 0
    ∧ (takenWorld.lists thePlayer.itemsRef).count 0 ≤ 1
    ∧ (crownUse.destroy_on_execute = true →
        ∃ w', ItemUse.destroy takenWorld crownUse.uid = some w'
          ∧ ItemUse.execute crownUse takenWorld = some (w', crownUse.effect w')
          ∧ 0 ∉ w'.lists thePlayer.itemsRef) :=
  ⟨rfl, rfl, by decide,
   (claim5_destroy_before_effect crownUse takenWorld thePlayer 0 rfl rfl (by decide)).1⟩

/-- C6 is contradicted by the code at src/main.py:292-301: with an empty
inventory the only valid selection is `1` (close), yet the menu's own
prompt offers `0 to exit`, `0` is rejected, and the error report names the
bounds `0` and `0` — not the valid range `[1, 1]`.  The loop does accept
exactly the integers in `[1, n+1]` (here, the subsequent `1`). -/
theorem claim6_inventory_message_bug :
    invValid 0 "0" = none
    ∧ invSelectLoop 0 ["0", "1"] = (some 1, [inventoryError 0])
    ∧ inventoryError 0 ≠ boundsMessage 1 (0 + 1)
    ∧ invValid 0 "1" = some 1 := by
  refine ⟨by decide, by decide, ?_, by decide⟩
  decide

theorem lists_setUse (w : World) (u : UseId) (s : ItemUseState) :
    (w.setUse u s).lists = w.lists := rfl

theorem add_item_lists_self (w : World) (c : Container) (i : ItemId) :
    (Container.add_item w c i).lists c.itemsRef = w.lists c.itemsRef ++ [i] :=
  lists_setList_self w c.itemsRef _

theorem add_item_lists_ne (w : World) (c : Container) (i : ItemId) (r : ListId)
    (h : r ≠ c.itemsRef) : (Container.add_item w c i).lists r = w.lists r :=
  lists_setList_ne w c.itemsRef _ r h

theorem remove_item_lists_mem (w : World) (c : Container) (i : ItemId)
    (h : i ∈ w.lists c.itemsRef) :
    (Container.remove_item w c i).lists c.itemsRef = (w.lists c.itemsRef).erase i := by
  unfold Container.remove_item pyListRemove
  rw [if_pos h, lists_setList_self]

theorem uses_set_virtual_location_self (w : World) (u : UseId) (c : Container) :
    ((ItemUse.set_virtual_location w u c).uses u).virtualLocation = some c := by
  simp [ItemUse.set_virtual_location, World.setUse]

/-- C1: when the player's current location holds item `i` (exactly once, as
the move protocol maintains), the `take` dispatch completes the move
protocol: afterwards `i` is absent from the location's item list, present
in the player's item list, and the item's use records the player as its
virtual location.  `loc.itemsRef ≠ player.itemsRef` says the two
containers are distinct list objects, as in the built world. -/
theorem claim1_take_moves_item (env : Env) (player : Container)
    (invInputs : List String) (w : World) (loc : Container) (i : ItemId)
    (hloc : w.playerLoc = some loc)
    (hcount : (w.lists loc.itemsRef).count i = 1)
    (hne : loc.itemsRef ≠ player.itemsRef) :
    ∃ w', Player.dispatch env player invInputs w (PlayerAction.take i) = some w'
      ∧ i ∉ w'.lists loc.itemsRef
      ∧ i ∈ w'.lists player.itemsRef
      ∧ (w'.uses (env.itemOf i).use.uid).virtualLocation = some player := by
  have hmem : i ∈ w.lists loc.itemsRef := by
    by_contra hn
    rw [List.count_eq_zero.mpr hn] at hcount
    exact absurd hcount (by decide)
  have hdisp : Player.dispatch env player invInputs w (PlayerAction.take i)
      = some (ItemUse.set_virtual_location
          (Container.add_item (Container.remove_item w loc i) player i)
          (env.itemOf i).use.uid player) := by
    unfold Player.dispatch
    rw [hloc]
  refine ⟨_, hdisp, ?_, ?_, uses_set_virtual_location_self _ _ player⟩
  · have g1 : (ItemUse.set_virtual_location
        (Container.add_item (Container.remove_item w loc i) player i)
        (env.itemOf i).use.uid player).lists loc.itemsRef
        = (w.lists loc.itemsRef).erase i := by
      calc (ItemUse.set_virtual_location
              (Container.add_item (Container.remove_item w loc i) player i)
              (env.itemOf i).use.uid player).lists loc.itemsRef
          = (Container.add_item (Container.remove_item w loc i) player i).lists
              loc.itemsRef := rfl
        _ = (Container.remove_item w loc i).lists loc.itemsRef :=
            add_item_lists_ne _ player i _ hne
        _ = (w.lists loc.itemsRef).erase i := remove_item_lists_mem w loc i hmem
    rw [g1]
    have h0 : ((w.lists loc.itemsRef).erase i).count i = 0 := by
      rw [List.count_erase_self]
      omega
    exact List.count_eq_zero.mp h0
  · have g2 : (ItemUse.set_virtual_location
        (Container.add_item (Container.remove_item w loc i) player i)
        (env.itemOf i).use.uid player).lists player.itemsRef
        = (Container.remove_item w loc i).lists player.itemsRef ++ [i] :=
      add_item_lists_self _ player i
    rw [g2]
    exact List.mem_append_right _ (List.mem_singleton.mpr rfl)

/-- C1 witness: at game start the crown (item `0`) lies in the lounge;
taking it moves it into the player's inventory and sets its use's owner to
the player. -/
theorem claim1_witness :
    startWorld.playerLoc = some lounge
    ∧ (startWorld.lists lounge.itemsRef).count 0 = 1
    ∧ lounge.itemsRef ≠ thePlayer.itemsRef
    ∧ ∃ w', Player.dispatch sampleEnv thePlayer [] startWorld (PlayerAction.take 0) = some w'
        ∧ 0 ∉ w'.lists lounge.itemsRef
        ∧ 0 ∈ w'.lists thePlayer.itemsRef
        ∧ (w'.uses (sampleEnv.itemOf 0).use.uid).virtualLocation = some thePlayer :=
  ⟨rfl, by decide, by decide,
   claim1_take_moves_item sampleEnv thePlayer [] startWorld lounge 0 rfl
     (by decide) (by decide)⟩

/-- C8: the `inventory` dispatch never changes the player's current
location (for any outcome of the sub-menu), and when the sub-menu
selection is `1` (close) it returns the world entirely unchanged: same
item lists, same use states, same location. -/
theorem claim8_inventory_frame (env : Env) (player : Container)
    (invInputs : List String) (w : World) :
    (∀ w', Player.dispatch env player invInputs w PlayerAction.inventory = some w' →
        w'.playerLoc = w.playerLoc)
    ∧ ((invSelectLoop (Container.get_items w player).length invInputs).1 = some 1 →
        Player.dispatch env player invInputs w PlayerAction.inventory = some w) := by
  constructor
  · intro w' h
    exact (enter_inventory_preserves env player invInputs w w' h).2
  · intro h
    show Player.enter_inventory env player invInputs w = some w
    simp only [Player.enter_inventory]
    rw [h]
    rfl

/-- C8 witness: with an empty inventory, entering the inventory and
selecting `1` (close) returns the start world unchanged. -/
theorem claim8_witness :
    (invSelectLoop (Container.get_items startWorld thePlayer).length ["1"]).1 = some 1
    ∧ Player.dispatch sampleEnv thePlayer ["1"] startWorld PlayerAction.inventory
        = some startWorld :=
  ⟨by decide,
   (claim8_inventory_frame sampleEnv thePlayer ["1"] startWorld).2 (by decide)⟩

/-- C9: `ItemUse.__init__` leaves `_virtual_location = None`;
`Item.__init__`'s `use.set_item(self)` does not set it either; putting the
item into a container (`add_item`, or the constructor binding an item
list) touches no use state; and the non-`take` dispatches (`quit`,
`inventory` — including a use execution, whose `destroy` only edits item
lists — and `go`) never change any use's virtual location.  The `take`
branch is the only core path that calls `set_virtual_location`, so an item
still lying where it was constructed has an unset owner. -/
theorem claim9_owner_unset_until_take (env : Env) (player c : Container)
    (invInputs : List String) (w : World) (it : Item) (i : ItemId) (u : UseId)
    (a : PlayerAction) :
    ItemUse.init.virtualLocation = none
    ∧ ((Item.construct w it).uses it.use.uid).virtualLocation = none
    ∧ (Container.add_item w c i).uses = w.uses
    ∧ (∀ w', (∀ j, a ≠ PlayerAction.take j) →
        Player.dispatch env player invInputs w a = some w' →
        (w'.uses u).virtualLocation = (w.uses u).virtualLocation) := by
  refine ⟨rfl, ?_, rfl, ?_⟩
  · simp [Item.construct, ItemUse.set_item, World.setUse, ItemUse.init]
  · intro w' hnt h
    cases a with
    | take j => exact absurd rfl (hnt j)
    | quit => simp [Player.dispatch] at h
    | inventory =>
      rw [(enter_inventory_preserves env player invInputs w w' h).1]
    | go ex =>
      unfold Player.dispatch at h
      injection h with h
      rw [← h]

/-- C9 witness: going through the hall exit (a non-`take` action) leaves
the crown's virtual location exactly as it was. -/
theorem claim9_witness :
    Player.dispatch sampleEnv thePlayer [] startWorld (PlayerAction.go hallExit)
      = some { startWorld with playerLoc := some hall }
    ∧ (({ startWorld with playerLoc := some hall } : World).uses 0).virtualLocation
        = (startWorld.uses 0).virtualLocation :=
  ⟨rfl,
   (claim9_owner_unset_until_take sampleEnv thePlayer lounge [] startWorld crown 0 0
      (PlayerAction.go hallExit)).2.2.2 { startWorld with playerLoc := some hall }
      (fun _ h => nomatch h) rfl⟩

example : (ItemUse.init).virtualLocation = none := rfl
example : pyParseInt "abc" = none := by decide
example : pyParseInt "0" = some 0 := by decide
example : pyParseInt "-12" = some (-12) := by decide
example : validMain 5 "3" = some 3 := by decide
example : validMain 5 "0" = none := by decide
example : validMain 5 "6" = none := by decide
example : (promptSelectLoop 5 ["0", "6", "abc", "3"]).1 = some 3 := by decide
example : (promptSelectLoop 5 ["0", "6", "abc", "3"]).2
    = [mainMenuError 5, mainMenuError 5, mainMenuError 5] := by decide
example : invValid 0 "0" = none := by decide
example : invValid 0 "1" = some 1 := by decide
example : inventoryError 0 = "Invalid choice. Please enter a number between 0 and 0." := by decide
